import Mathlib

/-!
Shallow embedding of the AnkiMCP permission engine and protocol router
(`src/ankimcp/permissions.py`, `src/ankimcp/simple_http_server.py`,
`src/ankimcp/anki_interface.py`), together with theorems settling the
specification claims about them.
-/

deriving instance DecidableEq for Except

namespace AnkiMCP

/-- `PermissionAction` enum from `permissions.py`. -/
inductive PermissionAction
  | READ
  | WRITE
  | DELETE
  | CREATE
deriving DecidableEq

/-- The `.value` string of each enum member. -/
def PermissionAction.value : PermissionAction → String
  | .READ => "read"
  | .WRITE => "write"
  | .DELETE => "delete"
  | .CREATE => "create"

/-- `PermissionMode` enum from `permissions.py`. -/
inductive PermissionMode
  | ALLOWLIST
  | DENYLIST
deriving DecidableEq

/-- `PermissionMode(value)` constructor: raises `ValueError` (here `none`)
on any string other than the two enum values. -/
def parseMode : String → Option PermissionMode
  | "allowlist" => some .ALLOWLIST
  | "denylist" => some .DENYLIST
  | _ => none

/-- The `deck_permissions` sub-document of the configuration: a dict that may
omit either key (`config.get` supplies the default at use sites). -/
structure RawDeckPerms where
  allowlist : Option (List String) := none
  denylist : Option (List String) := none
deriving DecidableEq

/-- The `tag_restrictions` sub-document of the configuration. -/
structure RawTagRestrictions where
  protected_tags : Option (List String) := none
  readonly_tags : Option (List String) := none
deriving DecidableEq

/-- The `note_type_permissions` sub-document of the configuration. -/
structure RawNoteTypePerms where
  allow_create : Option Bool := none
  allow_modify : Option Bool := none
  allowed_types : Option (List String) := none
deriving DecidableEq

/-- The `permissions` sub-document of the configuration: every key optional,
mirroring the `dict.get` defaulting in `PermissionManager.__init__`. The
`global` dict is modelled as an association list of flag name to boolean. -/
structure RawPermissions where
  globalFlags : Option (List (String × Bool)) := none
  mode : Option String := none
  deck_permissions : Option RawDeckPerms := none
  protected_decks : Option (List String) := none
  tag_restrictions : Option RawTagRestrictions := none
  note_type_permissions : Option RawNoteTypePerms := none
deriving DecidableEq

/-- The whole configuration document passed to `PermissionManager(config)`. -/
structure RawConfig where
  permissions : Option RawPermissions := none
deriving DecidableEq

/-- `dict.get(key, default)` over an association-list dict of booleans. -/
def lookupD (l : List (String × Bool)) (k : String) (d : Bool) : Bool :=
  (l.lookup k).getD d

/-- State of a constructed `PermissionManager` after `__init__` applied its
defaults (`protected_decks` defaults to `["Default"]` there; the inner
sub-documents keep their optional fields, defaulted at each use site just as
the Python code calls `.get` inside the check methods). -/
structure PermissionManager where
  global_perms : List (String × Bool)
  mode : PermissionMode
  deck_permissions : RawDeckPerms
  protected_decks : List String
  tag_restrictions : RawTagRestrictions
  note_type_permissions : RawNoteTypePerms
deriving DecidableEq

/-- `PermissionManager.__init__`: applies the documented defaults; fails
(`ValueError`, modelled as `none`) only when the `mode` string is invalid. -/
def PermissionManager.ofConfig (config : RawConfig) : Option PermissionManager :=
  let c := config.permissions.getD {}
  match parseMode (c.mode.getD "allowlist") with
  | none => none
  | some m =>
      some
        { global_perms := c.globalFlags.getD []
          mode := m
          deck_permissions := c.deck_permissions.getD {}
          protected_decks := c.protected_decks.getD ["Default"]
          tag_restrictions := c.tag_restrictions.getD {}
          note_type_permissions := c.note_type_permissions.getD {} }

/-- The distinct `PermissionError` messages raised by the permission engine,
kept structured; `ErrPerm.message` renders the exact f-strings. -/
inductive ErrPerm
  | globalDenied (action : String)
  | protectedDeck (deck : String)
  | notInAllowlist (deck : String) (action : String)
  | inDenylist (deck : String) (action : String)
  | protectedTags (tags : List String)
  | readonlyTags (tags : List String)
  | createNoteTypesDenied
  | modifyNoteTypesDenied
  | noteTypeNotAllowed (name : String)
deriving DecidableEq

/-- Render a tag collection the way the f-strings interpolate the Python set
(braces around the member list; member order in a Python set is unspecified,
the list order stands in for it). -/
def renderTagSet (tags : List String) : String :=
  "\x7b" ++ String.intercalate ", " tags ++ "\x7d"

/-- The exact exception messages from `permissions.py`. -/
def ErrPerm.message : ErrPerm → String
  | .globalDenied a => "Global " ++ a ++ " permission denied for all decks"
  | .protectedDeck d => "Deck '" ++ d ++ "' is protected from modifications"
  | .notInAllowlist d a => "Deck '" ++ d ++ "' is not in the allowlist for " ++ a
  | .inDenylist d a => "Deck '" ++ d ++ "' is in the denylist for " ++ a
  | .protectedTags ts =>
      "Notes with protected tags " ++ renderTagSet ts ++ " cannot be modified"
  | .readonlyTags ts =>
      "Notes with readonly tags " ++ renderTagSet ts ++ " cannot be modified"
  | .createNoteTypesDenied => "Creating new note types is not allowed"
  | .modifyNoteTypesDenied => "Modifying note types is not allowed"
  | .noteTypeNotAllowed n => "Note type '" ++ n ++ "' is not in the allowed types list"

/-- Try a predicate on every suffix of a string (used for `*`, which may
consume any prefix, the hierarchy separator `::` included). -/
def globSuffixes (f : List Char → Bool) : List Char → Bool
  | [] => f []
  | c :: s => f (c :: s) || globSuffixes f s

/-- `fnmatch.fnmatch` glob matching as used on POSIX with deck-name patterns:
whole-string anchored, case-sensitive; `*` matches any run of characters
(including `::`), `?` matches exactly one character; other characters match
themselves. (Bracket character classes, unused by this code base's pattern
vocabulary, are not modelled.) -/
def globMatch : List Char → List Char → Bool
  | [], s => s.isEmpty
  | p :: ps, s =>
      if p = '*' then globSuffixes (globMatch ps) s
      else
        match s with
        | [] => false
        | c :: s2 => if p = '?' ∨ p = c then globMatch ps s2 else false

/-- `PermissionManager._matches_any_pattern`. -/
def matchesAnyPattern (name : String) (patterns : List String) : Bool :=
  patterns.any (fun p => globMatch p.toList name.toList)

/-- `PermissionManager.check_deck_permission`. Python truthiness of the
allowlist (`if allowlist and ...`) is the `≠ []` test. -/
def check_deck_permission (pm : PermissionManager) (deck_name : String)
    (action : PermissionAction) : Except ErrPerm Unit :=
  let global_action := if action = .CREATE then PermissionAction.WRITE else action
  if lookupD pm.global_perms global_action.value true = false then
    .error (.globalDenied global_action.value)
  else if deck_name ∈ pm.protected_decks ∧
      action ∈ [PermissionAction.WRITE, PermissionAction.DELETE,
        PermissionAction.CREATE] then
    .error (.protectedDeck deck_name)
  else
    let allowlist := pm.deck_permissions.allowlist.getD []
    let denylist := pm.deck_permissions.denylist.getD []
    match pm.mode with
    | .ALLOWLIST =>
        if allowlist ≠ [] ∧ matchesAnyPattern deck_name allowlist = false then
          .error (.notInAllowlist deck_name action.value)
        else .ok ()
    | .DENYLIST =>
        if matchesAnyPattern deck_name denylist = true then
          .error (.inDenylist deck_name action.value)
        else .ok ()

/-- `PermissionManager.check_tag_permission`. The Python code intersects
sets; the intersection is modelled as the protected (resp. readonly) list
filtered by membership in `tags`, which has the same emptiness and
membership semantics. -/
def check_tag_permission (pm : PermissionManager) (tags : List String)
    (action : PermissionAction) : Except ErrPerm Unit :=
  let protected_tags := pm.tag_restrictions.protected_tags.getD []
  let readonly_tags := pm.tag_restrictions.readonly_tags.getD []
  let protectedHit := protected_tags.filter (fun t => decide (t ∈ tags))
  let readonlyHit := readonly_tags.filter (fun t => decide (t ∈ tags))
  if protectedHit ≠ [] ∧
      action ∈ [PermissionAction.WRITE, PermissionAction.DELETE] then
    .error (.protectedTags protectedHit)
  else if readonlyHit ≠ [] ∧ action ≠ .READ then
    .error (.readonlyTags readonlyHit)
  else .ok ()

/-- `PermissionManager.check_note_type_permission`. -/
def check_note_type_permission (pm : PermissionManager) (note_type : String)
    (action : PermissionAction) : Except ErrPerm Unit :=
  if action = .CREATE ∧ pm.note_type_permissions.allow_create.getD true = false then
    .error .createNoteTypesDenied
  else if action = .WRITE ∧ pm.note_type_permissions.allow_modify.getD true = false then
    .error .modifyNoteTypesDenied
  else
    let allowed_types := pm.note_type_permissions.allowed_types.getD []
    if allowed_types ≠ [] ∧ note_type ∉ allowed_types then
      .error (.noteTypeNotAllowed note_type)
    else .ok ()

/-- A deck record as far as `filter_decks` looks at it: the `"name"` key plus
the rest of the dict (opaque payload, carried through unchanged). -/
structure Deck where
  name : String
  rest : String := ""
deriving DecidableEq

/-- Whether a check succeeded (the `try/except PermissionError` test). -/
def exOk : Except ErrPerm Unit → Bool
  | .ok _ => true
  | .error _ => false

/-- `PermissionManager.filter_decks`: keep, in order, the decks whose name
passes the READ check; silently drop the rest. -/
def filter_decks (pm : PermissionManager) (decks : List Deck) : List Deck :=
  decks.filter (fun d => exOk (check_deck_permission pm d.name .READ))

/-! ### SSE session manager (`simple_http_server.py`, `SSESessionManager`)

The Python `_sessions` dict maps session-id strings to queues; it is
modelled as an association list with unique keys, a queue being the FIFO
list of pending messages. `del` removes the key entirely. -/

/-- The session table: id → pending outbound messages (FIFO). -/
abbrev SessionTable := List (String × List String)

/-- `create_session`: insert a fresh id with an empty queue (dict assignment
overwrites any entry under the same key). The uuid4 value is a parameter. -/
def create_session (t : SessionTable) (fresh : String) : SessionTable × String :=
  ((fresh, []) :: t.filter (fun p => p.1 ≠ fresh), fresh)

/-- `remove_session`: `del self._sessions[session_id]` when present. -/
def remove_session (t : SessionTable) (id : String) : SessionTable :=
  t.filter (fun p => p.1 ≠ id)

/-- `get_queue`: `self._sessions.get(session_id)`. -/
def get_queue (t : SessionTable) (id : String) : Option (List String) :=
  t.lookup id

/-- `send_message`: enqueue and return `True` when the session exists,
otherwise return `False` without touching the table. -/
def send_message (t : SessionTable) (id : String) (msg : String) :
    SessionTable × Bool :=
  match get_queue t id with
  | some _ =>
      (t.map (fun p => if p.1 = id then (p.1, p.2 ++ [msg]) else p), true)
  | none => (t, false)

/-! ### Router: `tools/call` handling (`simple_http_server.py`) -/

/-- JSON-RPC error codes used by the handler. -/
def INVALID_PARAMS : Int := -32602

/-- `INTERNAL_ERROR` code. -/
def INTERNAL_ERROR : Int := -32603

/-- The outcome of running one entry of the `tool_handlers` table: either a
result (its `json.dumps` rendering) or a raised exception with `str(e)`. -/
inductive ToolOutcome
  | ok (result : String)
  | exn (msg : String)
deriving DecidableEq

/-- The `result` object `_handle_tools_call` builds: the text of the single
content item and the `isError` flag. -/
structure ToolCallResult where
  text : String
  isError : Bool
deriving DecidableEq

/-- A `JSONRPCError` exception: code and message. -/
structure JErr where
  code : Int
  msg : String
deriving DecidableEq

/-- `_execute_tool`: look the tool up in `tool_handlers` and run it; an
unknown name raises `JSONRPCError(INVALID_PARAMS, "Unknown tool: X")`, which
`str()`s to its message and is caught by the caller like any exception. -/
def execute_tool (handlers : String → Option ToolOutcome)
    (tool_name : String) : ToolOutcome :=
  match handlers tool_name with
  | none => .exn ("Unknown tool: " ++ tool_name)
  | some o => o

/-- `_handle_tools_call`: a missing or falsy (empty) `name` param and an
uninitialized interface raise `JSONRPCError` (propagated to the JSON-RPC
level); any exception from tool execution is caught and turned into a
successful result with `isError := true` and text `"Error: " ++ str(e)`. -/
def handle_tools_call (anki_ok : Bool) (handlers : String → Option ToolOutcome)
    (tool_name : Option String) : Except JErr ToolCallResult :=
  match tool_name with
  | none => .error ⟨INVALID_PARAMS, "Missing 'name' parameter"⟩
  | some name =>
      if name = "" then .error ⟨INVALID_PARAMS, "Missing 'name' parameter"⟩
      else if anki_ok = false then
        .error ⟨INTERNAL_ERROR, "Anki interface not initialized"⟩
      else
        match execute_tool handlers name with
        | .ok r => .ok ⟨r, false⟩
        | .exn m => .ok ⟨"Error: " ++ m, true⟩

/-- A JSON-RPC response envelope: exactly one of `result` or `error`. -/
inductive RPCResponse
  | success (id : Option Int) (result : ToolCallResult)
  | rpcError (id : Option Int) (code : Int) (message : String)
deriving DecidableEq

/-- The `_handle_mcp_post` dispatch for a `tools/call` request: a normal
return becomes `success_response`, a raised `JSONRPCError` becomes
`error_response` with its code and message. -/
def handle_mcp_tools_call (request_id : Option Int) (anki_ok : Bool)
    (handlers : String → Option ToolOutcome) (tool_name : Option String) :
    RPCResponse :=
  match handle_tools_call anki_ok handlers tool_name with
  | .ok r => .success request_id r
  | .error e => .rpcError request_id e.code e.msg

/-- Is the envelope a success (`result`-carrying) envelope? -/
def RPCResponse.isSuccess : RPCResponse → Bool
  | .success _ _ => true
  | .rpcError _ _ _ => false

/-! ### `AnkiInterface.create_note_type` (`anki_interface.py`) -/

/-- The template dicts handed to `create_note_type` (each key optional). -/
structure NoteTemplateArg where
  name : Option String := none
  qfmt : Option String := none
  afmt : Option String := none
deriving DecidableEq

/-- A built card template of the new model. -/
structure NoteTemplate where
  name : String
  qfmt : String
  afmt : String
deriving DecidableEq

/-- A Python error surfaced by interface operations: a `PermissionError`
from the engine or the `IndexError` from indexing an empty `fields` list. -/
inductive PyErr
  | perm (e : ErrPerm)
  | indexError
deriving DecidableEq

/-- Build one template: `template.get("qfmt", "\x7b\x7b" + fields[0] + "\x7d\x7d")`
evaluates its default argument eagerly, so an empty `fields` list raises
`IndexError` for every template, present keys or not. -/
def mkTemplate (fields : List String) (t : NoteTemplateArg) :
    Except PyErr NoteTemplate :=
  match fields.head?, fields.getLast? with
  | some f0, some fl =>
      .ok
        { name := t.name.getD "Card 1"
          qfmt := t.qfmt.getD ("\x7b\x7b" ++ f0 ++ "\x7d\x7d")
          afmt := t.afmt.getD
            ("\x7b\x7bFrontSide\x7d\x7d\n\n<hr id=answer>\n\n\x7b\x7b" ++ fl ++ "\x7d\x7d") }
  | _, _ => .error .indexError

/-- The `for template in templates` loop: first failure aborts. -/
def mkTemplates (fields : List String) :
    List NoteTemplateArg → Except PyErr (List NoteTemplate)
  | [] => .ok []
  | t :: ts =>
      match mkTemplate fields t with
      | .error e => .error e
      | .ok tm =>
          match mkTemplates fields ts with
          | .error e => .error e
          | .ok tms => .ok (tm :: tms)

/-- The dict `create_note_type` returns. -/
structure CreateNoteTypeResult where
  name : String
  field_count : Nat
  template_count : Nat
  created : Bool
deriving DecidableEq

/-- `AnkiInterface.create_note_type`: builds the model and saves it. The
permission manager of the interface is a parameter here solely so that the
function's independence from it can be stated; the source never consults
it (no `check_*` call appears in the method). -/
def create_note_type (perms : PermissionManager) (name : String)
    (fields : List String) (templates : List NoteTemplateArg) :
    Except PyErr CreateNoteTypeResult :=
  match mkTemplates fields templates with
  | .error e => .error e
  | .ok tmpls =>
      .ok
        { name := name
          field_count := fields.length
          template_count := tmpls.length
          created := true }

/-- Does an interface operation fail with a `PermissionError`? -/
def isPermErr {α : Type} : Except PyErr α → Bool
  | .error (.perm _) => true
  | _ => false

/-! ### Substring helper for message claims -/

/-- Does the haystack start with the needle? -/
def startsWithL : List Char → List Char → Bool
  | _, [] => true
  | [], _ :: _ => false
  | h :: hs, n :: ns => h = n && startsWithL hs ns

/-- Does the needle occur contiguously anywhere in the haystack? -/
def containsL (need : List Char) : List Char → Bool
  | [] => need.isEmpty
  | h :: hs => startsWithL (h :: hs) need || containsL need hs

/-- Substring test on strings. -/
def strContains (hay need : String) : Bool :=
  containsL need.toList hay.toList

/-- ASCII lowercasing, for reading messages case-insensitively. -/
def asciiLower (c : Char) : Char :=
  if 'A' ≤ c ∧ c ≤ 'Z' then Char.ofNat (c.toNat + 32) else c

/-- ASCII-lowercase a string. -/
def strLower (s : String) : String :=
  ⟨s.toList.map asciiLower⟩

/-! ### Helper lemmas -/

theorem str_toList_append (a b : String) :
    (a ++ b).toList = a.toList ++ b.toList := by
  cases a
  cases b
  rfl

theorem startsWithL_nil (hay : List Char) : startsWithL hay [] = true := by
  cases hay <;> rfl

theorem startsWithL_self (n : List Char) : startsWithL n n = true := by
  induction n with
  | nil => rfl
  | cons a t ih => simp [startsWithL, ih]

theorem startsWithL_append (xs ys n : List Char) (h : startsWithL xs n = true) :
    startsWithL (xs ++ ys) n = true := by
  induction n generalizing xs with
  | nil => exact startsWithL_nil _
  | cons nh nt ih =>
      cases xs with
      | nil => simp [startsWithL] at h
      | cons xh xt =>
          simp only [startsWithL, Bool.and_eq_true, decide_eq_true_eq] at h
          simp only [List.cons_append, startsWithL, Bool.and_eq_true,
            decide_eq_true_eq]
          exact ⟨h.1, ih xt h.2⟩

theorem containsL_of_startsWith (hay n : List Char)
    (h : startsWithL hay n = true) : containsL n hay = true := by
  cases hay with
  | nil =>
      cases n with
      | nil => rfl
      | cons a t => simp [startsWithL] at h
  | cons hh ht => simp [containsL, h]

theorem containsL_self (n : List Char) : containsL n n = true :=
  containsL_of_startsWith n n (startsWithL_self n)

theorem containsL_append_left (xs ys n : List Char) (h : containsL n xs = true) :
    containsL n (xs ++ ys) = true := by
  induction xs with
  | nil =>
      cases n with
      | nil => exact containsL_of_startsWith _ _ (startsWithL_nil _)
      | cons a t => simp [containsL] at h
  | cons xh xt ih =>
      simp only [containsL, Bool.or_eq_true] at h
      rcases h with h1 | h2
      · simp only [List.cons_append, containsL, Bool.or_eq_true]
        exact Or.inl (by
          have := startsWithL_append (xh :: xt) ys n h1
          simpa using this)
      · simp only [List.cons_append, containsL, Bool.or_eq_true]
        exact Or.inr (ih h2)

theorem containsL_append_right (xs ys n : List Char) (h : containsL n ys = true) :
    containsL n (xs ++ ys) = true := by
  induction xs with
  | nil => simpa using h
  | cons xh xt ih =>
      simp only [List.cons_append, containsL, Bool.or_eq_true]
      exact Or.inr ih

theorem strContains_left (a b n : String) (h : strContains a n = true) :
    strContains (a ++ b) n = true := by
  unfold strContains at *
  rw [str_toList_append]
  exact containsL_append_left _ _ _ h

theorem strContains_right (a b : String) : strContains (a ++ b) b = true := by
  unfold strContains
  rw [str_toList_append]
  exact containsL_append_right _ _ _ (containsL_self _)

theorem globMatch_star (s : List Char) : globMatch ['*'] s = true := by
  show globSuffixes (globMatch []) s = true
  induction s with
  | nil => rfl
  | cons c t ih =>
      show (globMatch [] (c :: t) || globSuffixes (globMatch []) t) = true
      rw [ih]
      simp

theorem globMatch_cons_lit (c : Char) (hc : ¬c = '*') (ps s : List Char) :
    globMatch (c :: ps) (c :: s) = globMatch ps s := by
  simp [globMatch, hc]

theorem globMatch_lit_star (pre s : List Char)
    (h : ∀ c ∈ pre, ¬c = '*') :
    globMatch (pre ++ ['*']) (pre ++ s) = true := by
  induction pre with
  | nil => simpa using globMatch_star s
  | cons c cs ih =>
      have hc : ¬c = '*' := h c (List.mem_cons_self c cs)
      simp only [List.cons_append]
      rw [globMatch_cons_lit c hc]
      exact ih (fun x hx => h x (List.mem_cons_of_mem c hx))

theorem lookup_remove_session (t : SessionTable) (id : String) :
    (remove_session t id).lookup id = none := by
  induction t with
  | nil => rfl
  | cons p rest ih =>
      obtain ⟨k, v⟩ := p
      unfold remove_session at *
      rw [List.filter_cons]
      by_cases h : k = id
      · rw [if_neg (by simp [h])]
        exact ih
      · rw [if_pos (by simp [h])]
        have hbk : (id == k) = false := by
          simp only [beq_eq_false_iff_ne, ne_eq]
          exact fun e => h e.symm
        simp only [List.lookup, hbk]
        exact ih

theorem lookup_send_update (t : SessionTable) (id : String) (msg : String)
    (q : List String) (h : t.lookup id = some q) :
    (t.map (fun p => if p.1 = id then (p.1, p.2 ++ [msg]) else p)).lookup id =
      some (q ++ [msg]) := by
  induction t with
  | nil => simp [List.lookup] at h
  | cons p rest ih =>
      obtain ⟨k, v⟩ := p
      by_cases hp : k = id
      · subst hp
        simp only [List.lookup, beq_self_eq_true, Option.some.injEq] at h
        rw [List.map_cons]
        dsimp only
        rw [if_pos rfl]
        simp [List.lookup, h]
      · have hbk : (id == k) = false := by
          simp only [beq_eq_false_iff_ne, ne_eq]
          exact fun e => hp e.symm
        simp only [List.lookup, hbk] at h
        rw [List.map_cons]
        dsimp only
        rw [if_neg hp]
        simp only [List.lookup, hbk]
        exact ih h

theorem mkTemplate_err (fields : List String) (t : NoteTemplateArg) (e : PyErr)
    (h : mkTemplate fields t = .error e) : e = .indexError := by
  unfold mkTemplate at h
  split at h
  · exact absurd h (by simp)
  · injection h with h2
    exact h2.symm

theorem mkTemplates_err (fields : List String) (ts : List NoteTemplateArg)
    (e : PyErr) (h : mkTemplates fields ts = .error e) : e = .indexError := by
  induction ts with
  | nil => simp [mkTemplates] at h
  | cons t rest ih =>
      unfold mkTemplates at h
      split at h
      · injection h with h2
        subst h2
        next h1 => exact mkTemplate_err fields t _ h1
      · split at h
        · injection h with h2
          subst h2
          next h2 => exact ih h2
        · exact absurd h (by simp)

/-! ### Named policies and fixtures used by the claims -/

/-- Allowlist mode with an explicitly empty allowlist, permissive globals,
no protected decks. -/
def pmEmptyAllowlist : PermissionManager :=
  { global_perms := []
    mode := .ALLOWLIST
    deck_permissions := { allowlist := some [], denylist := some [] }
    protected_decks := []
    tag_restrictions := {}
    note_type_permissions := {} }

/-- Allowlist mode with allowlist `["Spanish"]` and protected deck
`Default`, permissive global flags. -/
def pmProtectedAllowlist : PermissionManager :=
  { global_perms := [("read", true), ("write", true), ("delete", true)]
    mode := .ALLOWLIST
    deck_permissions := { allowlist := some ["Spanish"], denylist := some [] }
    protected_decks := ["Default"]
    tag_restrictions := {}
    note_type_permissions := {} }

/-- Denylist mode, empty pattern lists, protected deck `Default`. -/
def pmProtectedDenylist : PermissionManager :=
  { global_perms := [("read", true), ("write", true), ("delete", true)]
    mode := .DENYLIST
    deck_permissions := {}
    protected_decks := ["Default"]
    tag_restrictions := {}
    note_type_permissions := {} }

/-- The scenario configuration
`{global:{read:true,write:false,delete:false}, mode:denylist}`. -/
def cfgGlobalNoWrite : RawConfig :=
  { permissions := some
      { globalFlags := some [("read", true), ("write", false), ("delete", false)]
        mode := some "denylist" } }

/-- The manager `cfgGlobalNoWrite` constructs. -/
def pmGlobalNoWrite : PermissionManager :=
  { global_perms := [("read", true), ("write", false), ("delete", false)]
    mode := .DENYLIST
    deck_permissions := {}
    protected_decks := ["Default"]
    tag_restrictions := {}
    note_type_permissions := {} }

/-- Tag restrictions: protected tag `important`, readonly tag `archive`. -/
def pmTagRestricted : PermissionManager :=
  { global_perms := []
    mode := .DENYLIST
    deck_permissions := {}
    protected_decks := []
    tag_restrictions :=
      { protected_tags := some ["important"], readonly_tags := some ["archive"] }
    note_type_permissions := {} }

/-- The empty configuration document (every key omitted). -/
def cfgEmpty : RawConfig := {}

/-- The manager the empty configuration constructs. -/
def pmDefaultCfg : PermissionManager :=
  { global_perms := []
    mode := .ALLOWLIST
    deck_permissions := {}
    protected_decks := ["Default"]
    tag_restrictions := {}
    note_type_permissions := {} }

/-- Steps 3/4 of `check_deck_permission` as a predicate: does the deck name
pass the mode's allowlist/denylist pattern check? -/
def passes_list_check (pm : PermissionManager) (name : String) : Bool :=
  if pm.mode = .ALLOWLIST then
    decide (pm.deck_permissions.allowlist.getD [] = []) ||
      matchesAnyPattern name (pm.deck_permissions.allowlist.getD [])
  else !(matchesAnyPattern name (pm.deck_permissions.denylist.getD []))

/-- Tool handler table used in witnesses: one succeeding tool, one whose
execution raises a `PermissionError`. -/
def demoHandlers : String → Option ToolOutcome :=
  fun n =>
    if n = "list_decks" then some (.ok "[]")
    else if n = "delete_note" then
      some (.exn "Deck 'Default' is protected from modifications")
    else none

/-! ### The claims -/

/-- Let-free restatement of `check_deck_permission` (definitional). -/
theorem check_deck_permission_eq (pm : PermissionManager) (d : String)
    (a : PermissionAction) :
    check_deck_permission pm d a =
      (if lookupD pm.global_perms
          (if a = .CREATE then PermissionAction.WRITE else a).value true = false then
        .error (.globalDenied
          (if a = .CREATE then PermissionAction.WRITE else a).value)
      else if d ∈ pm.protected_decks ∧
          a ∈ [PermissionAction.WRITE, PermissionAction.DELETE,
            PermissionAction.CREATE] then
        .error (.protectedDeck d)
      else
        match pm.mode with
        | .ALLOWLIST =>
            if pm.deck_permissions.allowlist.getD [] ≠ [] ∧
                matchesAnyPattern d (pm.deck_permissions.allowlist.getD []) = false then
              .error (.notInAllowlist d a.value)
            else .ok ()
        | .DENYLIST =>
            if matchesAnyPattern d (pm.deck_permissions.denylist.getD []) = true then
              .error (.inDenylist d a.value)
            else .ok ()) := rfl

/-- Let-free restatement of `check_tag_permission` (definitional). -/
theorem check_tag_permission_eq (pm : PermissionManager) (tags : List String)
    (action : PermissionAction) :
    check_tag_permission pm tags action =
      (if (pm.tag_restrictions.protected_tags.getD []).filter
            (fun t => decide (t ∈ tags)) ≠ [] ∧
          action ∈ [PermissionAction.WRITE, PermissionAction.DELETE] then
        .error (.protectedTags ((pm.tag_restrictions.protected_tags.getD []).filter
          (fun t => decide (t ∈ tags))))
      else if (pm.tag_restrictions.readonly_tags.getD []).filter
            (fun t => decide (t ∈ tags)) ≠ [] ∧ action ≠ .READ then
        .error (.readonlyTags ((pm.tag_restrictions.readonly_tags.getD []).filter
          (fun t => decide (t ∈ tags))))
      else .ok ()) := rfl

/-- C1, counterexample: in ALLOWLIST mode with an empty deck allowlist and
the global/protected steps passing, `check_deck_permission` SUCCEEDS on deck
"Spanish" for WRITE — refuting "an empty allowlist denies every deck for
every action" (the code guards the allowlist test with Python truthiness:
`if allowlist and not ...`). -/
theorem c1_counterexample :
    pmEmptyAllowlist.mode = .ALLOWLIST ∧
    pmEmptyAllowlist.deck_permissions.allowlist.getD [] = [] ∧
    check_deck_permission pmEmptyAllowlist "Spanish" .WRITE = .ok () := by
  decide

/-- C1, amended: in ALLOWLIST mode with an empty deck allowlist, the
allowlist step never fails: past the global-flag and protected-deck steps
(the only other failure sources), every deck is ALLOWED for every action. -/
theorem c1_theorem (pm : PermissionManager) (name : String)
    (action : PermissionAction) (hmode : pm.mode = .ALLOWLIST)
    (hempty : pm.deck_permissions.allowlist.getD [] = []) :
    check_deck_permission pm name action = .ok () ∨
    (∃ a, check_deck_permission pm name action = .error (.globalDenied a)) ∨
    check_deck_permission pm name action = .error (.protectedDeck name) := by
  rw [check_deck_permission_eq]
  by_cases hg : lookupD pm.global_perms
      (if action = .CREATE then PermissionAction.WRITE else action).value true = false
  · rw [if_pos hg]
    exact Or.inr (Or.inl ⟨_, rfl⟩)
  · rw [if_neg hg]
    by_cases hp : name ∈ pm.protected_decks ∧
        action ∈ [PermissionAction.WRITE, PermissionAction.DELETE,
          PermissionAction.CREATE]
    · rw [if_pos hp]
      exact Or.inr (Or.inr rfl)
    · rw [if_neg hp]
      left
      cases hm : pm.mode with
      | ALLOWLIST =>
          dsimp only
          rw [if_neg (fun hc => hc.1 hempty)]
      | DENYLIST =>
          rw [hmode] at hm
          exact absurd hm (by decide)

/-- C1 witness. -/
theorem c1_witness :
    check_deck_permission pmEmptyAllowlist "Spanish" .WRITE = .ok () ∨
    (∃ a, check_deck_permission pmEmptyAllowlist "Spanish" .WRITE =
      .error (.globalDenied a)) ∨
    check_deck_permission pmEmptyAllowlist "Spanish" .WRITE =
      .error (.protectedDeck "Spanish") :=
  c1_theorem pmEmptyAllowlist "Spanish" .WRITE (by decide) (by decide)

/-- C2, counterexample: deck "Default" is protected and the global read
flag is true, yet READ FAILS under an allowlist that does not cover
"Default" — refuting "protected decks are readable always, regardless of
the allowlist/denylist configuration". -/
theorem c2_counterexample :
    "Default" ∈ pmProtectedAllowlist.protected_decks ∧
    lookupD pmProtectedAllowlist.global_perms "read" true = true ∧
    check_deck_permission pmProtectedAllowlist "Default" .READ =
      .error (.notInAllowlist "Default" "read") := by
  decide

/-- C2, amended: for a protected deck, WRITE, DELETE and CREATE always
raise; READ succeeds provided the global read flag is true AND the deck
passes the mode's allowlist/denylist pattern check (protection does not
bypass that check). -/
theorem c2_theorem (pm : PermissionManager) (d : String)
    (hd : d ∈ pm.protected_decks) :
    (∀ action, action ∈ [PermissionAction.WRITE, PermissionAction.DELETE,
        PermissionAction.CREATE] →
      ∃ e, check_deck_permission pm d action = .error e) ∧
    (lookupD pm.global_perms "read" true = true →
      passes_list_check pm d = true →
      check_deck_permission pm d .READ = .ok ()) := by
  constructor
  · intro action hact
    rw [check_deck_permission_eq]
    by_cases hg : lookupD pm.global_perms
        (if action = .CREATE then PermissionAction.WRITE else action).value true = false
    · rw [if_pos hg]
      exact ⟨_, rfl⟩
    · rw [if_neg hg, if_pos ⟨hd, hact⟩]
      exact ⟨_, rfl⟩
  · intro hread hlist
    rw [check_deck_permission_eq]
    have hv : (if PermissionAction.READ = PermissionAction.CREATE then
        PermissionAction.WRITE else PermissionAction.READ).value = "read" := rfl
    rw [if_neg (by rw [hv, hread]; simp)]
    rw [if_neg (fun hc => by simpa using hc.2)]
    unfold passes_list_check at hlist
    cases hm : pm.mode with
    | ALLOWLIST =>
        dsimp only
        rw [hm, if_pos rfl] at hlist
        have hlist2 : pm.deck_permissions.allowlist.getD [] = [] ∨
            matchesAnyPattern d (pm.deck_permissions.allowlist.getD []) = true := by
          simpa using hlist
        rcases hlist2 with h1 | h2
        · rw [if_neg (fun hc => hc.1 h1)]
        · rw [if_neg (fun hc => by rw [h2] at hc; exact absurd hc.2 (by simp))]
    | DENYLIST =>
        dsimp only
        rw [hm, if_neg (by decide)] at hlist
        simp only [Bool.not_eq_true'] at hlist
        rw [if_neg (fun hc => by rw [hlist] at hc; exact absurd hc (by simp))]

/-- C2 witness. -/
theorem c2_witness :
    (∃ e, check_deck_permission pmProtectedDenylist "Default" .WRITE =
      .error e) ∧
    check_deck_permission pmProtectedDenylist "Default" .READ = .ok () := by
  have h := c2_theorem pmProtectedDenylist "Default" (by decide)
  exact ⟨h.1 .WRITE (by decide), h.2 (by decide) (by decide)⟩

/-- C3: any exception raised while executing a `tools/call` tool — a
`PermissionError` from the operation or the `JSONRPCError` for an
unregistered tool name — is returned as a JSON-RPC SUCCESS envelope whose
result carries `isError = true` and a text payload containing the error
message (for an unknown tool, containing "Unknown tool: X"); such failures
never produce a JSON-RPC-level error object. -/
theorem c3_theorem (id : Option Int) (handlers : String → Option ToolOutcome)
    (name : String) (hname : name ≠ "") :
    (∀ m, handlers name = some (.exn m) →
      handle_mcp_tools_call id true handlers (some name) =
        .success id ⟨"Error: " ++ m, true⟩ ∧
      strContains ("Error: " ++ m) m = true) ∧
    (handlers name = none →
      handle_mcp_tools_call id true handlers (some name) =
        .success id ⟨"Error: " ++ ("Unknown tool: " ++ name), true⟩ ∧
      strContains ("Error: " ++ ("Unknown tool: " ++ name))
        ("Unknown tool: " ++ name) = true) ∧
    (((∃ m, handlers name = some (.exn m)) ∨ handlers name = none) →
      (handle_mcp_tools_call id true handlers (some name)).isSuccess = true) := by
  refine ⟨?_, ?_, ?_⟩
  · intro m hm
    refine ⟨?_, strContains_right "Error: " m⟩
    simp [handle_mcp_tools_call, handle_tools_call, execute_tool, hm, hname]
  · intro hn
    refine ⟨?_, strContains_right "Error: " ("Unknown tool: " ++ name)⟩
    simp [handle_mcp_tools_call, handle_tools_call, execute_tool, hn, hname]
  · intro hcase
    rcases hcase with ⟨m, hm⟩ | hn
    · simp [handle_mcp_tools_call, handle_tools_call, execute_tool, hm, hname,
        RPCResponse.isSuccess]
    · simp [handle_mcp_tools_call, handle_tools_call, execute_tool, hn, hname,
        RPCResponse.isSuccess]

/-- C3 witness. -/
theorem c3_witness :
    (handle_mcp_tools_call (some 7) true demoHandlers (some "delete_note") =
        .success (some 7)
          ⟨"Error: " ++ "Deck 'Default' is protected from modifications", true⟩ ∧
      strContains ("Error: " ++ "Deck 'Default' is protected from modifications")
        "Deck 'Default' is protected from modifications" = true) ∧
    (handle_mcp_tools_call (some 8) true demoHandlers (some "bogus") =
        .success (some 8) ⟨"Error: " ++ ("Unknown tool: " ++ "bogus"), true⟩ ∧
      strContains ("Error: " ++ ("Unknown tool: " ++ "bogus"))
        ("Unknown tool: " ++ "bogus") = true) :=
  ⟨(c3_theorem (some 7) demoHandlers "delete_note" (by decide)).1
      "Deck 'Default' is protected from modifications" (by decide),
    (c3_theorem (some 8) demoHandlers "bogus" (by decide)).2.1 (by decide)⟩

/-- C4: `AnkiInterface.create_note_type` never consults the permission
policy — for any two permission configurations its result on the same name,
fields and templates is identical, and it never fails with a
`PermissionError`. -/
theorem c4_theorem (p1 p2 : PermissionManager) (name : String)
    (fields : List String) (templates : List NoteTemplateArg) :
    create_note_type p1 name fields templates =
      create_note_type p2 name fields templates ∧
    isPermErr (create_note_type p1 name fields templates) = false := by
  refine ⟨rfl, ?_⟩
  unfold create_note_type
  cases h : mkTemplates fields templates with
  | error e =>
      have he := mkTemplates_err fields templates e h
      subst he
      rfl
  | ok tms => rfl

/-- C5: a tag list holding at least one protected and at least one readonly
tag fails a WRITE check with the protected-tags error (the protected check
runs before the readonly check), and its message cites "protected tags". -/
theorem c5_theorem (pm : PermissionManager) (tags : List String) (pt rt : String)
    (hpt1 : pt ∈ pm.tag_restrictions.protected_tags.getD [])
    (hpt2 : pt ∈ tags)
    (hrt1 : rt ∈ pm.tag_restrictions.readonly_tags.getD [])
    (hrt2 : rt ∈ tags) :
    ∃ ts, check_tag_permission pm tags .WRITE = .error (.protectedTags ts) ∧
      strContains (ErrPerm.protectedTags ts).message "protected tags" = true := by
  have hmem : pt ∈ (pm.tag_restrictions.protected_tags.getD []).filter
      (fun t => decide (t ∈ tags)) :=
    List.mem_filter.mpr ⟨hpt1, decide_eq_true hpt2⟩
  refine ⟨(pm.tag_restrictions.protected_tags.getD []).filter
      (fun t => decide (t ∈ tags)), ?_, ?_⟩
  · rw [check_tag_permission_eq,
      if_pos ⟨List.ne_nil_of_mem hmem, by simp⟩]
  · exact strContains_left _ _ _ (strContains_left _ _ _ (by decide))

/-- C5 witness. -/
theorem c5_witness :
    ∃ ts, check_tag_permission pmTagRestricted ["important", "archive"] .WRITE =
        .error (.protectedTags ts) ∧
      strContains (ErrPerm.protectedTags ts).message "protected tags" = true :=
  c5_theorem pmTagRestricted ["important", "archive"] "important" "archive"
    (by decide) (by decide) (by decide) (by decide)

/-- C6: `check_deck_permission` maps CREATE to WRITE for the global-flag
check only and fails with the global-denial message when the mapped flag is
false; under the scenario policy `{global:{read:true,write:false,
delete:false}, mode:denylist}`, WRITE on "Spanish" raises with a message
containing "global" (case-insensitively) and "write", while READ succeeds;
the allowlist step, by contrast, keeps the unmapped action (its CREATE
failure message says "create"). -/
theorem c6_theorem :
    (∀ (pm : PermissionManager) (name : String),
      lookupD pm.global_perms "write" true = false →
        check_deck_permission pm name .CREATE = .error (.globalDenied "write") ∧
        check_deck_permission pm name .WRITE = .error (.globalDenied "write")) ∧
    (PermissionManager.ofConfig cfgGlobalNoWrite = some pmGlobalNoWrite ∧
      check_deck_permission pmGlobalNoWrite "Spanish" .WRITE =
        .error (.globalDenied "write") ∧
      strContains (strLower (ErrPerm.globalDenied "write").message) "global" = true ∧
      strContains (ErrPerm.globalDenied "write").message "write" = true ∧
      check_deck_permission pmGlobalNoWrite "Spanish" .READ = .ok () ∧
      check_deck_permission pmProtectedAllowlist "Personal" .CREATE =
        .error (.notInAllowlist "Personal" "create")) := by
  constructor
  · intro pm name h
    constructor
    · rw [check_deck_permission_eq]
      have hv : (if PermissionAction.CREATE = PermissionAction.CREATE then
          PermissionAction.WRITE else PermissionAction.CREATE).value = "write" := rfl
      rw [if_pos (by rw [hv]; exact h), hv]
    · rw [check_deck_permission_eq]
      have hv : (if PermissionAction.WRITE = PermissionAction.CREATE then
          PermissionAction.WRITE else PermissionAction.WRITE).value = "write" := rfl
      rw [if_pos (by rw [hv]; exact h), hv]
  · exact ⟨by decide, by decide, by decide, by decide, by decide, by decide⟩

/-- C6 witness. -/
theorem c6_witness :
    check_deck_permission pmGlobalNoWrite "Spanish" .CREATE =
      .error (.globalDenied "write") ∧
    check_deck_permission pmGlobalNoWrite "Spanish" .WRITE =
      .error (.globalDenied "write") :=
  c6_theorem.1 pmGlobalNoWrite "Spanish" (by decide)

/-- C7: deck-pattern matching is whole-string anchored, case-sensitive
glob matching whose `*` crosses the `::` separator: `Languages::*` matches
`Languages::Spanish` and `Languages::Japanese::Kanji` (indeed any
`Languages::`-prefixed name), not `Personal::Study`; the exact pattern
`Spanish` matches neither `spanish` nor `Spanish::Sub`, so with allowlist
`["Spanish"]` a WRITE on `Spanish::Sub` fails the allowlist check. -/
theorem c7_theorem :
    matchesAnyPattern "Languages::Spanish" ["Languages::*"] = true ∧
    matchesAnyPattern "Languages::Japanese::Kanji" ["Languages::*"] = true ∧
    matchesAnyPattern "Personal::Study" ["Languages::*"] = false ∧
    (∀ s : String, matchesAnyPattern ("Languages::" ++ s) ["Languages::*"] = true) ∧
    matchesAnyPattern "spanish" ["Spanish"] = false ∧
    matchesAnyPattern "Spanish::Sub" ["Spanish"] = false ∧
    check_deck_permission pmProtectedAllowlist "Spanish::Sub" .WRITE =
      .error (.notInAllowlist "Spanish::Sub" "write") := by
  refine ⟨by decide, by decide, by decide, ?_, by decide, by decide, by decide⟩
  intro s
  unfold matchesAnyPattern
  simp only [List.any_cons, List.any_nil, Bool.or_false]
  rw [str_toList_append]
  have e1 : "Languages::*".toList = "Languages::".toList ++ ['*'] := by decide
  rw [e1]
  exact globMatch_lit_star _ _ (by decide)

/-- C8: `filter_decks` is idempotent, preserves input order (its output is
a sublist of the input), and keeps exactly the decks whose name passes the
READ check, silently dropping the rest. -/
theorem c8_theorem (pm : PermissionManager) (decks : List Deck) :
    filter_decks pm (filter_decks pm decks) = filter_decks pm decks ∧
    List.Sublist (filter_decks pm decks) decks ∧
    (∀ d, d ∈ filter_decks pm decks ↔
      d ∈ decks ∧ exOk (check_deck_permission pm d.name .READ) = true) := by
  refine ⟨?_, ?_, ?_⟩
  · unfold filter_decks
    rw [List.filter_filter]
    simp
  · exact List.filter_sublist _
  · intro d
    unfold filter_decks
    simp [List.mem_filter]

/-- C9: once a streaming session is removed from the session table, its id
no longer resolves and every subsequent send returns `false` without
modifying the table (so the id never receives a message again); a send to a
still-existing id appends the message to that session's FIFO queue and
returns `true`. -/
theorem c9_theorem (t : SessionTable) (id : String) (msg : String) :
    send_message (remove_session t id) id msg = (remove_session t id, false) ∧
    get_queue (remove_session t id) id = none ∧
    (∀ q, get_queue t id = some q →
      (send_message t id msg).2 = true ∧
      get_queue (send_message t id msg).1 id = some (q ++ [msg])) := by
  have hnone : get_queue (remove_session t id) id = none := lookup_remove_session t id
  refine ⟨?_, hnone, ?_⟩
  · unfold send_message
    rw [hnone]
  · intro q hq
    have hs : send_message t id msg =
        (t.map (fun p => if p.1 = id then (p.1, p.2 ++ [msg]) else p), true) := by
      unfold send_message
      rw [hq]
    rw [hs]
    exact ⟨rfl, lookup_send_update t id msg q hq⟩

/-- C9 witness. -/
theorem c9_witness :
    (send_message (remove_session [("s1", [])] "s1") "s1" "ping" =
      (remove_session [("s1", [])] "s1", false)) ∧
    (send_message [("s1", [])] "s1" "ping").2 = true ∧
    get_queue (send_message [("s1", [])] "s1" "ping").1 "s1" =
      some ([] ++ ["ping"]) := by
  have h := c9_theorem [("s1", [])] "s1" "ping"
  have h3 := h.2.2 [] (by decide)
  exact ⟨h.1, h3.1, h3.2⟩

/-- C10: with the `protected_decks` key omitted, the constructed policy
protects exactly `Default`: under the otherwise fully permissive empty
configuration, WRITE, DELETE and CREATE on "Default" raise while READ
succeeds. -/
theorem c10_theorem :
    PermissionManager.ofConfig cfgEmpty = some pmDefaultCfg ∧
    pmDefaultCfg.protected_decks = ["Default"] ∧
    check_deck_permission pmDefaultCfg "Default" .WRITE =
      .error (.protectedDeck "Default") ∧
    check_deck_permission pmDefaultCfg "Default" .DELETE =
      .error (.protectedDeck "Default") ∧
    check_deck_permission pmDefaultCfg "Default" .CREATE =
      .error (.protectedDeck "Default") ∧
    check_deck_permission pmDefaultCfg "Default" .READ = .ok () := by
  decide

end AnkiMCP
